import Mathlib

/-!
Verification of the task-management core of the
`SistemaGestionEmpresarial-Demo` repository.

The development shallowly embeds the Python sources:

* `app/entities/enums/enums.py` — `PrioridadEnum`, `EstadoEnum`;
* `app/entities/models/tarea.py` — the pydantic model `Tarea` and its
  validators (`titulo_no_vacio`, `fecha_valida`, the `max_length=70` field
  constraint);
* `app/infraestructure/services/tarea_service.py` — `TareaService` with
  `cargar_tareas`, `guardar_tareas`, `agregar_tarea`, `buscar_tarea_por_id`,
  `listar_tareas_por_prioridad`, `listar_tareas_por_vencimiento`,
  `actualizar_estado_tarea`.

Timestamps (`datetime`) are embedded as natural numbers; `isoformat` /
`fromisoformat` round-trip a `datetime` exactly, so serialization of the
due date is the identity on the embedded value.  The Python `dict` keyed
by task id is embedded as an insertion-ordered association list whose
`dictInsert` replaces an existing key in place and otherwise appends,
matching CPython insertion-order semantics.  Side effects that the spec
talks about are made explicit in the service state: `saves` counts calls
to `guardar_tareas` (snapshot rewrites) and `errores` counts calls to
`log_manager.log_error`.
-/

set_option maxHeartbeats 1000000

namespace SistemaGestion

/-- `PrioridadEnum` from `entities/enums/enums.py`. -/
inductive Prioridad where
  | alta
  | media
  | baja
  deriving DecidableEq, Repr

/-- `EstadoEnum` from `entities/enums/enums.py`. -/
inductive Estado where
  | pendiente
  | enProgreso
  | completada
  deriving DecidableEq, Repr

/-- The string value of each `PrioridadEnum` member. -/
def prioridadStr : Prioridad → String
  | .alta => "alta"
  | .media => "media"
  | .baja => "baja"

/-- The string value of each `EstadoEnum` member. -/
def estadoStr : Estado → String
  | .pendiente => "pendiente"
  | .enProgreso => "en progreso"
  | .completada => "completada"

/-- `PrioridadEnum(s)`: value-based enum lookup, `none` when the call
raises `ValueError`. -/
def parsePrioridad (s : String) : Option Prioridad :=
  if s = "alta" then some .alta
  else if s = "media" then some .media
  else if s = "baja" then some .baja
  else none

/-- `EstadoEnum(s)`: value-based enum lookup, `none` when the call
raises `ValueError`. -/
def parseEstado (s : String) : Option Estado :=
  if s = "pendiente" then some .pendiente
  else if s = "en progreso" then some .enProgreso
  else if s = "completada" then some .completada
  else none

/-- The validated pydantic model `Tarea` (`entities/models/tarea.py`). -/
structure Tarea where
  id : Nat
  titulo : String
  descripcion : String
  prioridad : Prioridad
  estado : Estado
  fecha_vencimiento : Nat
  deriving DecidableEq, Repr

/-- One record object of the persisted snapshot: the keyword dictionary
passed to `Tarea(**tarea_dict)` in `cargar_tareas`, after the
`fecha_vencimiento` string has been converted with
`datetime.fromisoformat`.  Enum-typed fields are raw strings which
pydantic validates by enum value. -/
structure RawTarea where
  id : Nat
  titulo : String
  descripcion : String
  prioridad : String
  estado : String
  fecha_vencimiento : Nat
  deriving DecidableEq, Repr

/-- The `max_length=70` constraint of the `titulo` field together with the
`titulo_no_vacio` validator (`not v.strip()` fails): the title passes iff
it has at most 70 characters and is not whitespace-only. -/
def tituloValido (s : String) : Bool :=
  s.length ≤ 70 && !(s.data.all Char.isWhitespace)

/-- The `fecha_valida` validator: `v < datetime.now()` fails, where `now`
is the construction-time clock. -/
def fechaValida (now fecha : Nat) : Bool :=
  !(fecha < now)

/-- Pydantic construction `Tarea(**dict)` at clock `now`: validates the
enum fields by value and runs the field validators; `none` models a
raised `ValidationError`. -/
def mkTarea (now : Nat) (r : RawTarea) : Option Tarea :=
  match parsePrioridad r.prioridad, parseEstado r.estado with
  | some p, some e =>
      if tituloValido r.titulo && fechaValida now r.fecha_vencimiento then
        some ⟨r.id, r.titulo, r.descripcion, p, e, r.fecha_vencimiento⟩
      else none
  | _, _ => none

/-- `tarea.dict()` followed by the `isoformat` rewrite in
`guardar_tareas`: the serialized record object written to the snapshot. -/
def serializeTarea (t : Tarea) : RawTarea :=
  ⟨t.id, t.titulo, t.descripcion, prioridadStr t.prioridad,
    estadoStr t.estado, t.fecha_vencimiento⟩

/-- Python's `str.lower()` as used on the ASCII priority and status
texts: lower-cases each character. -/
def pyLower (s : String) : String :=
  ⟨s.data.map Char.toLower⟩

/-- Insertion-ordered dictionary assignment `d[k] = v` of a CPython
`dict`: replaces the value of an existing key in place, appends a new
key at the end. -/
def dictInsert (k : Nat) (v : Tarea) : List (Nat × Tarea) → List (Nat × Tarea)
  | [] => [(k, v)]
  | (k', v') :: rest =>
      if k' = k then (k, v) :: rest else (k', v') :: dictInsert k v rest

/-- `d.get(k)` on the insertion-ordered dictionary. -/
def dictGet (k : Nat) : List (Nat × Tarea) → Option Tarea
  | [] => none
  | (k', v) :: rest => if k' = k then some v else dictGet k rest

/-- The mutable state of a `TareaService` instance, with the observable
side channels made explicit: `saves` counts `guardar_tareas` snapshot
rewrites, `errores` counts `log_manager.log_error` calls. -/
structure ServiceState where
  tareas : List (Nat × Tarea)
  siguiente_id : Nat
  saves : Nat
  errores : Nat
  deriving DecidableEq, Repr

/-- The state `__init__` builds before `cargar_tareas` runs (also the
state when no snapshot file exists): empty mapping, counter 1. -/
def emptyState : ServiceState :=
  ⟨[], 1, 0, 0⟩

/-- The JSON document written by `guardar_tareas`: the top-level keys
`siguiente_id` and `tareas`. -/
structure Snapshot where
  siguiente_id : Nat
  tareas : List RawTarea
  deriving DecidableEq, Repr

/-- `TareaService.guardar_tareas`: serializes the counter and every
stored record into one snapshot document; one snapshot rewrite is
recorded. -/
def guardar_tareas (st : ServiceState) : Snapshot × ServiceState :=
  (⟨st.siguiente_id, (st.tareas.map Prod.snd).map serializeTarea⟩,
    { st with saves := st.saves + 1 })

/-- The body of the per-record `try` in `TareaService.cargar_tareas`,
reached only after `datetime.fromisoformat` has already succeeded on the
record's date string (that conversion runs before the `try`; see
`cargarLoopArchivo` for the loop with the conversion included): attempt
`Tarea(**tarea_dict)`; on success store it under its id, on
`ValidationError` log the error and skip the record. -/
def cargarPaso (now : Nat) (st : ServiceState) (r : RawTarea) : ServiceState :=
  match mkTarea now r with
  | some t => { st with tareas := dictInsert t.id t st.tareas }
  | none => { st with errores := st.errores + 1 }

/-- `TareaService.cargar_tareas` applied to a snapshot whose top level
parsed and whose every record's date string parses, at load-time clock
`now`: takes `siguiente_id` from the document when truthy, then folds
the record loop over the `tareas` array (an empty array is falsy, which
coincides with folding over it).  The general loop over a file whose
date strings may fail to parse is `cargar_tareas_archivo`. -/
def cargar_tareas (now : Nat) (snap : Snapshot) (st : ServiceState) : ServiceState :=
  snap.tareas.foldl (cargarPaso now)
    (if snap.siguiente_id ≠ 0 then
      { st with siguiente_id := snap.siguiente_id } else st)

/-- A fresh `TareaService(...)` constructed while `snap` is on disk:
`__init__` state followed by `cargar_tareas`, at load-time clock `now`. -/
def freshLoad (now : Nat) (snap : Snapshot) : ServiceState :=
  cargar_tareas now snap emptyState

/-- The due-date string of a record object as it sits in the snapshot
file: `valida t` when `datetime.fromisoformat` parses it to the
timestamp `t`, `invalida` when that call raises `ValueError`. -/
inductive FechaTexto where
  | valida (t : Nat)
  | invalida
  deriving DecidableEq, Repr

/-- One record object of the snapshot file before the date conversion:
like `RawTarea` but with the due date still a string that
`datetime.fromisoformat` may reject. -/
structure RawTareaArchivo where
  id : Nat
  titulo : String
  descripcion : String
  prioridad : String
  estado : String
  fecha_texto : FechaTexto
  deriving DecidableEq, Repr

/-- The `datetime.fromisoformat` rewrite of a file record
(`tarea_service.py` line 56): the converted keyword dictionary when the
date string parses, `none` when the conversion raises `ValueError`. -/
def convertirFecha (r : RawTareaArchivo) : Option RawTarea :=
  match r.fecha_texto with
  | .valida f => some ⟨r.id, r.titulo, r.descripcion, r.prioridad, r.estado, f⟩
  | .invalida => none

/-- The record loop of `TareaService.cargar_tareas` over the file's
record objects, date conversion included.  The `fromisoformat` call
runs before the per-record `try`, so when it raises `ValueError` the
exception escapes to the outer `except Exception`, which logs one error
and ends the load: the remaining records are dropped and the state
keeps only what was loaded so far. -/
def cargarLoopArchivo (now : Nat) :
    ServiceState → List RawTareaArchivo → ServiceState
  | st, [] => st
  | st, r :: rest =>
      match r.fecha_texto with
      | .valida f =>
          cargarLoopArchivo now
            (cargarPaso now st
              ⟨r.id, r.titulo, r.descripcion, r.prioridad, r.estado, f⟩) rest
      | .invalida => { st with errores := st.errores + 1 }

/-- The snapshot file as parsed JSON, record dates still strings. -/
structure SnapshotArchivo where
  siguiente_id : Nat
  tareas : List RawTareaArchivo
  deriving DecidableEq, Repr

/-- `TareaService.cargar_tareas` on a snapshot file whose top level
parsed, at load-time clock `now`: takes `siguiente_id` when truthy, then
runs the record loop with its in-loop date conversion. -/
def cargar_tareas_archivo (now : Nat) (snap : SnapshotArchivo)
    (st : ServiceState) : ServiceState :=
  cargarLoopArchivo now
    (if snap.siguiente_id ≠ 0 then
      { st with siguiente_id := snap.siguiente_id } else st)
    snap.tareas

/-- A fresh `TareaService(...)` constructed while the snapshot file
`snap` is on disk, at load-time clock `now`. -/
def freshLoadArchivo (now : Nat) (snap : SnapshotArchivo) : ServiceState :=
  cargar_tareas_archivo now snap emptyState

/-- `MAX_TAREAS`. -/
def MAX_TAREAS : Nat := 50000

/-- Outcome of `agregar_tarea`: `limite` is the capacity `ValueError`,
`errorPrioridad` the `ValueError` from `PrioridadEnum(prioridad.lower())`
re-raised by the generic handler, `errorValidacion` the pydantic
`ValidationError` re-raised as `ValueError`, `creada t` the successful
return of the new record. -/
inductive CreateResult where
  | limite
  | errorPrioridad
  | errorValidacion
  | creada (t : Tarea)
  deriving DecidableEq, Repr

/-- `TareaService.agregar_tarea(titulo, descripcion, prioridad,
fecha_vencimiento)` at clock `now`.  Checks the `MAX_TAREAS` ceiling,
parses the priority text case-insensitively, constructs the record with
id `siguiente_id` and state `PENDIENTE`, and on success inserts it,
advances the counter and saves; every failure path logs one error and
raises without mutating. -/
def agregar_tarea (now : Nat) (titulo descripcion prioridad : String)
    (fecha_vencimiento : Nat) (st : ServiceState) :
    CreateResult × ServiceState :=
  if st.tareas.length ≥ MAX_TAREAS then
    (.limite, { st with errores := st.errores + 1 })
  else
    match parsePrioridad (pyLower prioridad) with
    | none => (.errorPrioridad, { st with errores := st.errores + 1 })
    | some p =>
        if tituloValido titulo && fechaValida now fecha_vencimiento then
          let t : Tarea :=
            ⟨st.siguiente_id, titulo, descripcion, p, .pendiente,
              fecha_vencimiento⟩
          (.creada t,
            { st with
                tareas := dictInsert st.siguiente_id t st.tareas
                siguiente_id := st.siguiente_id + 1
                saves := st.saves + 1 })
        else (.errorValidacion, { st with errores := st.errores + 1 })

/-- `TareaService.buscar_tarea_por_id`. -/
def buscar_tarea_por_id (tarea_id : Nat) (st : ServiceState) : Option Tarea :=
  dictGet tarea_id st.tareas

/-- The `prioridad_valor` rank mapping of
`listar_tareas_por_prioridad`. -/
def prioridad_valor : Prioridad → Nat
  | .baja => 1
  | .media => 2
  | .alta => 3

/-- `TareaService.listar_tareas_por_prioridad(ascendente)`: all stored
records, stably sorted by priority rank, ascending or descending.
Python's `sorted` is stable, and a stable sort's output is uniquely
determined by the comparison, so the stable `insertionSort` embeds it
exactly; `sorted(..., reverse=True)` keeps equal keys in insertion
order, exactly as a stable sort under the flipped non-strict comparison
does. -/
def listar_tareas_por_prioridad (ascendente : Bool) (st : ServiceState) :
    List Tarea :=
  if ascendente then
    (st.tareas.map Prod.snd).insertionSort
      (fun a b => prioridad_valor a.prioridad ≤ prioridad_valor b.prioridad)
  else
    (st.tareas.map Prod.snd).insertionSort
      (fun a b => prioridad_valor b.prioridad ≤ prioridad_valor a.prioridad)

/-- `TareaService.listar_tareas_por_vencimiento`: the stored records
whose `estado` is not `COMPLETADA`, stably sorted ascending by due
date. -/
def listar_tareas_por_vencimiento (st : ServiceState) : List Tarea :=
  ((st.tareas.map Prod.snd).filter
      (fun t => t.estado ≠ .completada)).insertionSort
    (fun a b => a.fecha_vencimiento ≤ b.fecha_vencimiento)

/-- Outcome of `actualizar_estado_tarea`: `notFound` is the early
`return None`, `estadoInvalido` the re-raised `ValueError`,
`actualizada t` the successful return of the updated record. -/
inductive UpdateResult where
  | notFound
  | estadoInvalido
  | actualizada (t : Tarea)
  deriving DecidableEq, Repr

/-- `TareaService.actualizar_estado_tarea(tarea_id, nuevo_estado)`:
returns `None` when the id is absent; otherwise validates the status
text case-insensitively, mutates the stored record's `estado` in place,
saves, and returns the record; an unrecognized status logs one error and
raises. -/
def actualizar_estado_tarea (tarea_id : Nat) (nuevo_estado : String)
    (st : ServiceState) : UpdateResult × ServiceState :=
  match dictGet tarea_id st.tareas with
  | none => (.notFound, st)
  | some t =>
      match parseEstado (pyLower nuevo_estado) with
      | none => (.estadoInvalido, { st with errores := st.errores + 1 })
      | some e =>
          let t' : Tarea := { t with estado := e }
          (.actualizada t',
            { st with
                tareas := dictInsert tarea_id t' st.tareas
                saves := st.saves + 1 })

/-- One user interaction with the add-task menu entry: the arguments the
presentation shell passes to `agregar_tarea`, together with the wall
clock at that moment. -/
structure CreateInput where
  now : Nat
  titulo : String
  descripcion : String
  prioridad : String
  fecha_vencimiento : Nat
  deriving Repr

/-- The id returned by a create call, when it succeeded. -/
def createResultId : CreateResult → Option Nat
  | .creada t => some t.id
  | _ => none

/-- A sequence of `agregar_tarea` calls run left to right, collecting
each call's outcome. -/
def creates : ServiceState → List CreateInput → List CreateResult × ServiceState
  | st, [] => ([], st)
  | st, i :: rest =>
      ((agregar_tarea i.now i.titulo i.descripcion i.prioridad
          i.fecha_vencimiento st).1 ::
        (creates (agregar_tarea i.now i.titulo i.descripcion i.prioridad
          i.fecha_vencimiento st).2 rest).1,
       (creates (agregar_tarea i.now i.titulo i.descripcion i.prioridad
          i.fecha_vencimiento st).2 rest).2)

/-- Sample task used in concrete witnesses. -/
def tareaA : Tarea :=
  ⟨1, "Completar informe", "informe Q3", .alta, .pendiente, 100⟩

/-- Second sample task used in concrete witnesses. -/
def tareaB : Tarea :=
  ⟨2, "Revisar contrato", "contrato anual", .baja, .enProgreso, 200⟩

/-- Registry with priorities inserted in the order [baja, alta, media]
(the completed task included), used for the concrete ordering example. -/
def stPrioridades : ServiceState :=
  ⟨[(1, ⟨1, "tarea baja", "d", .baja, .pendiente, 100⟩),
    (2, ⟨2, "tarea alta", "d", .alta, .completada, 100⟩),
    (3, ⟨3, "tarea media", "d", .media, .pendiente, 100⟩)], 4, 0, 0⟩

/-- Registry with due dates T+1h/T+2h/T+3h (T = 100) and statuses
pendiente/completada/en progreso, used for the concrete due-date
example. -/
def stVencimientos : ServiceState :=
  ⟨[(1, ⟨1, "uno", "d", .media, .pendiente, 101⟩),
    (2, ⟨2, "dos", "d", .media, .completada, 102⟩),
    (3, ⟨3, "tres", "d", .media, .enProgreso, 103⟩)], 4, 0, 0⟩

/-- Five-record snapshot file whose every date string parses and whose
third record fails validation (empty title), used to witness the
amended loading claim. -/
def snapshotEjemplo : SnapshotArchivo :=
  ⟨6, [⟨1, "t1", "d", "alta", "pendiente", .valida 100⟩,
       ⟨2, "t2", "d", "media", "en progreso", .valida 100⟩,
       ⟨3, "", "d", "baja", "pendiente", .valida 100⟩,
       ⟨4, "t4", "d", "alta", "completada", .valida 100⟩,
       ⟨5, "t5", "d", "baja", "pendiente", .valida 100⟩]⟩

/-- Five-record snapshot file whose third record is malformed — a
whitespace-only title and a due-date string `datetime.fromisoformat`
rejects — while the other four records are valid. -/
def snapshotMalformada : SnapshotArchivo :=
  ⟨6, [⟨1, "t1", "d", "alta", "pendiente", .valida 100⟩,
       ⟨2, "t2", "d", "media", "en progreso", .valida 100⟩,
       ⟨3, " ", "d", "baja", "pendiente", .invalida⟩,
       ⟨4, "t4", "d", "alta", "completada", .valida 100⟩,
       ⟨5, "t5", "d", "baja", "pendiente", .valida 100⟩]⟩

/-! ### Dictionary lemmas -/

theorem dictGet_dictInsert_self (k : Nat) (v : Tarea) (l : List (Nat × Tarea)) :
    dictGet k (dictInsert k v l) = some v := by
  induction l with
  | nil => simp [dictInsert, dictGet]
  | cons p rest ih =>
      obtain ⟨k', v'⟩ := p
      by_cases h : k' = k
      · simp [dictInsert, dictGet, h]
      · simp [dictInsert, dictGet, h, ih]

theorem dictGet_dictInsert_ne (j k : Nat) (v : Tarea) (l : List (Nat × Tarea))
    (h : j ≠ k) : dictGet j (dictInsert k v l) = dictGet j l := by
  induction l with
  | nil => simp [dictInsert, dictGet, Ne.symm h]
  | cons p rest ih =>
      obtain ⟨k', v'⟩ := p
      by_cases hk : k' = k
      · subst hk
        simp [dictInsert, dictGet, h, Ne.symm h]
      · by_cases hj : k' = j
        · subst hj
          simp [dictInsert, dictGet, hk]
        · simp [dictInsert, dictGet, hk, hj, ih]

theorem dictInsert_not_mem (k : Nat) (v : Tarea) (l : List (Nat × Tarea))
    (h : k ∉ l.map Prod.fst) : dictInsert k v l = l ++ [(k, v)] := by
  induction l with
  | nil => simp [dictInsert]
  | cons p rest ih =>
      obtain ⟨k', v'⟩ := p
      simp only [List.map_cons, List.mem_cons] at h
      push_neg at h
      simp [dictInsert, Ne.symm h.1, ih h.2]

theorem mem_dictInsert (k : Nat) (v : Tarea) (l : List (Nat × Tarea))
    (p : Nat × Tarea) (h : p ∈ dictInsert k v l) : p ∈ l ∨ p = (k, v) := by
  induction l with
  | nil => simp [dictInsert] at h; simp [h]
  | cons q rest ih =>
      obtain ⟨k', v'⟩ := q
      by_cases hk : k' = k
      · simp only [dictInsert, if_pos hk, List.mem_cons] at h
        rcases h with h | h
        · right; exact h
        · left; simp [h]
      · simp only [dictInsert, if_neg hk, List.mem_cons] at h
        rcases h with h | h
        · left; simp [h]
        · rcases ih h with h' | h'
          · left; simp [h']
          · right; exact h'

/-! ### Validation lemmas -/

theorem mkTarea_id (now : Nat) (r : RawTarea) (t : Tarea)
    (h : mkTarea now r = some t) : t.id = r.id := by
  unfold mkTarea at h
  split at h
  · split at h
    · cases h
      rfl
    · cases h
  · cases h

theorem parsePrioridad_prioridadStr (p : Prioridad) :
    parsePrioridad (prioridadStr p) = some p := by
  cases p <;> rfl

theorem parseEstado_estadoStr (e : Estado) :
    parseEstado (estadoStr e) = some e := by
  cases e <;> rfl

theorem mkTarea_serializeTarea (now : Nat) (t : Tarea)
    (ht : tituloValido t.titulo = true) (hf : now ≤ t.fecha_vencimiento) :
    mkTarea now (serializeTarea t) = some t := by
  have hfv : fechaValida now t.fecha_vencimiento = true := by
    simp [fechaValida]
    omega
  simp [mkTarea, serializeTarea, parsePrioridad_prioridadStr,
    parseEstado_estadoStr, ht, hfv]

/-! ### C8, C9 — status update -/

/-- C8: for every registry state containing a record with the given id, a
successful `actualizar_estado_tarea` with a recognized status text
changes only that record's status field (the returned and stored record
is the old one with `estado` replaced), leaves every other record
unchanged, leaves the next-id counter unchanged, and triggers exactly
one snapshot save. -/
theorem actualizar_estado_frame (st : ServiceState) (tarea_id : Nat)
    (txt : String) (t : Tarea) (e : Estado)
    (hget : dictGet tarea_id st.tareas = some t)
    (hEstado : parseEstado (pyLower txt) = some e) :
    (actualizar_estado_tarea tarea_id txt st).1 =
        .actualizada { t with estado := e }
    ∧ dictGet tarea_id (actualizar_estado_tarea tarea_id txt st).2.tareas =
        some { t with estado := e }
    ∧ (∀ j, j ≠ tarea_id →
        dictGet j (actualizar_estado_tarea tarea_id txt st).2.tareas =
          dictGet j st.tareas)
    ∧ (actualizar_estado_tarea tarea_id txt st).2.siguiente_id =
        st.siguiente_id
    ∧ (actualizar_estado_tarea tarea_id txt st).2.saves = st.saves + 1 := by
  refine ⟨?_, ?_, ?_, ?_, ?_⟩ <;>
    simp [actualizar_estado_tarea, hget, hEstado, dictGet_dictInsert_self]
  intro j hj
  exact dictGet_dictInsert_ne j tarea_id _ _ hj

/-- Concrete instance of `actualizar_estado_frame`: completing task 1 in
a two-task registry. -/
theorem actualizar_estado_frame_witness :
    (actualizar_estado_tarea 1 "Completada"
        ⟨[(1, tareaA), (2, tareaB)], 3, 4, 0⟩).1 =
      .actualizada { tareaA with estado := .completada }
    ∧ dictGet 1 (actualizar_estado_tarea 1 "Completada"
        ⟨[(1, tareaA), (2, tareaB)], 3, 4, 0⟩).2.tareas =
      some { tareaA with estado := .completada }
    ∧ (∀ j, j ≠ 1 →
        dictGet j (actualizar_estado_tarea 1 "Completada"
          ⟨[(1, tareaA), (2, tareaB)], 3, 4, 0⟩).2.tareas =
        dictGet j (⟨[(1, tareaA), (2, tareaB)], 3, 4, 0⟩ : ServiceState).tareas)
    ∧ (actualizar_estado_tarea 1 "Completada"
        ⟨[(1, tareaA), (2, tareaB)], 3, 4, 0⟩).2.siguiente_id = 3
    ∧ (actualizar_estado_tarea 1 "Completada"
        ⟨[(1, tareaA), (2, tareaB)], 3, 4, 0⟩).2.saves = 4 + 1 :=
  actualizar_estado_frame ⟨[(1, tareaA), (2, tareaB)], 3, 4, 0⟩ 1
    "Completada" tareaA .completada (by decide) (by decide)

/-- C9: for every id absent from the mapping, `actualizar_estado_tarea`
returns the absent result (`None` in the source) rather than raising,
whatever the status text, and the whole state — mapping, counter, save
count, error count — is unchanged. -/
theorem actualizar_estado_ausente (st : ServiceState) (tarea_id : Nat)
    (txt : String) (h : dictGet tarea_id st.tareas = none) :
    actualizar_estado_tarea tarea_id txt st = (.notFound, st) := by
  simp [actualizar_estado_tarea, h]

/-- Concrete instance of `actualizar_estado_ausente`: id 7 on an empty
registry, with an unrecognized status text. -/
theorem actualizar_estado_ausente_witness :
    actualizar_estado_tarea 7 "no-es-un-estado" emptyState =
      (.notFound, emptyState) :=
  actualizar_estado_ausente emptyState 7 "no-es-un-estado" (by decide)

/-! ### C4 — capacity ceiling -/

/-- C4: when the registry already holds `MAX_TAREAS = 50000` records,
`agregar_tarea` fails with the capacity error, inserts nothing, and does
not advance the next-id counter (and performs no save). -/
theorem agregar_tarea_limite (now : Nat) (titulo descripcion prioridad : String)
    (fecha : Nat) (st : ServiceState) (h : st.tareas.length = MAX_TAREAS) :
    (agregar_tarea now titulo descripcion prioridad fecha st).1 = .limite
    ∧ (agregar_tarea now titulo descripcion prioridad fecha st).2.tareas =
        st.tareas
    ∧ (agregar_tarea now titulo descripcion prioridad fecha st).2.siguiente_id =
        st.siguiente_id
    ∧ (agregar_tarea now titulo descripcion prioridad fecha st).2.saves =
        st.saves := by
  have hge : st.tareas.length ≥ MAX_TAREAS := Nat.le_of_eq h.symm
  simp [agregar_tarea, hge]

/-- Concrete instance of `agregar_tarea_limite`: a registry filled with
50000 records rejects one more task. -/
theorem agregar_tarea_limite_witness :
    (agregar_tarea 0 "una mas" "detalle" "alta" 500
        ⟨List.replicate 50000 (1, tareaA), 50001, 0, 0⟩).1 = .limite
    ∧ (agregar_tarea 0 "una mas" "detalle" "alta" 500
        ⟨List.replicate 50000 (1, tareaA), 50001, 0, 0⟩).2.tareas =
      (⟨List.replicate 50000 (1, tareaA), 50001, 0, 0⟩ : ServiceState).tareas
    ∧ (agregar_tarea 0 "una mas" "detalle" "alta" 500
        ⟨List.replicate 50000 (1, tareaA), 50001, 0, 0⟩).2.siguiente_id = 50001
    ∧ (agregar_tarea 0 "una mas" "detalle" "alta" 500
        ⟨List.replicate 50000 (1, tareaA), 50001, 0, 0⟩).2.saves = 0 :=
  agregar_tarea_limite 0 "una mas" "detalle" "alta" 500
    ⟨List.replicate 50000 (1, tareaA), 50001, 0, 0⟩
    (by show (List.replicate 50000 ((1 : Nat), tareaA)).length = MAX_TAREAS
        rw [List.length_replicate]
        rfl)

/-! ### C3 — record validation contract -/

theorem parsePrioridad_eq_none (s : String) :
    parsePrioridad s = none ↔ (s ≠ "alta" ∧ s ≠ "media" ∧ s ≠ "baja") := by
  unfold parsePrioridad
  split_ifs <;> simp_all

theorem parseEstado_eq_none (s : String) :
    parseEstado s = none ↔
      (s ≠ "pendiente" ∧ s ≠ "en progreso" ∧ s ≠ "completada") := by
  unfold parseEstado
  split_ifs <;> simp_all

theorem tituloValido_eq_false (s : String) :
    tituloValido s = false ↔
      (70 < s.length ∨ ∀ c ∈ s.data, c.isWhitespace) := by
  by_cases h70 : s.length ≤ 70
  · have h70' : ¬ 70 < s.length := Nat.not_lt.2 h70
    simp [tituloValido, h70, h70', List.all_eq_true]
  · have h70' : 70 < s.length := Nat.not_le.1 h70
    simp [tituloValido, h70, h70']

theorem fechaValida_eq_false (now fecha : Nat) :
    fechaValida now fecha = false ↔ fecha < now := by
  simp [fechaValida]

theorem mkTarea_eq_none_iff (now : Nat) (r : RawTarea) :
    mkTarea now r = none ↔
      (parsePrioridad r.prioridad = none ∨ parseEstado r.estado = none ∨
       tituloValido r.titulo = false ∨
       fechaValida now r.fecha_vencimiento = false) := by
  unfold mkTarea
  rcases hp : parsePrioridad r.prioridad with _ | p
  · simp [hp]
  · rcases he : parseEstado r.estado with _ | e
    · simp [hp, he]
    · by_cases ht : tituloValido r.titulo = true
      · by_cases hf : fechaValida now r.fecha_vencimiento = true
        · simp [hp, he, ht, hf]
        · rw [Bool.not_eq_true] at hf
          simp [hp, he, ht, hf]
      · rw [Bool.not_eq_true] at ht
        simp [hp, he, ht]

/-- C3: pydantic construction of a `Tarea` fails (with a
`ValidationError`) exactly when the title is empty or whitespace-only,
or longer than 70 characters, or the priority text is none of
alta/media/baja, or the status text is none of
pendiente/en progreso/completada, or the due date lies before the
construction-time clock — every other input shape succeeds; and whenever
`agregar_tarea` fails with the re-raised `ValidationError`, the mapping
and the next-id counter are left unchanged. -/
theorem mkTarea_validacion :
    (∀ (now : Nat) (r : RawTarea),
      mkTarea now r = none ↔
        ((∀ c ∈ r.titulo.data, c.isWhitespace) ∨
         70 < r.titulo.length ∨
         (r.prioridad ≠ "alta" ∧ r.prioridad ≠ "media" ∧ r.prioridad ≠ "baja") ∨
         (r.estado ≠ "pendiente" ∧ r.estado ≠ "en progreso" ∧
           r.estado ≠ "completada") ∨
         r.fecha_vencimiento < now))
    ∧ (∀ (now : Nat) (titulo descripcion prioridad : String) (fecha : Nat)
        (st : ServiceState),
        (agregar_tarea now titulo descripcion prioridad fecha st).1 =
          .errorValidacion →
        (agregar_tarea now titulo descripcion prioridad fecha st).2.tareas =
            st.tareas
        ∧ (agregar_tarea now titulo descripcion prioridad fecha
            st).2.siguiente_id = st.siguiente_id) := by
  constructor
  · intro now r
    rw [mkTarea_eq_none_iff, parsePrioridad_eq_none, parseEstado_eq_none,
      tituloValido_eq_false, fechaValida_eq_false]
    tauto
  · intro now titulo descripcion prioridad fecha st
    by_cases hcap : st.tareas.length ≥ MAX_TAREAS
    · simp [agregar_tarea, hcap]
    · rcases hp : parsePrioridad (pyLower prioridad) with _ | p
      · simp [agregar_tarea, hcap, hp]
      · by_cases hv : (tituloValido titulo && fechaValida now fecha) = true
        · simp [agregar_tarea, hcap, hp, hv]
        · simp [agregar_tarea, hcap, hp, hv]

/-- Concrete instance of `mkTarea_validacion`: a whitespace-only title is
rejected and the failing `agregar_tarea` call mutates nothing; a
well-formed record is accepted. -/
theorem mkTarea_validacion_witness :
    ((agregar_tarea 0 "   " "detalle" "Alta" 5 emptyState).2.tareas =
        emptyState.tareas
      ∧ (agregar_tarea 0 "   " "detalle" "Alta" 5 emptyState).2.siguiente_id =
        emptyState.siguiente_id)
    ∧ ¬ mkTarea 0 ⟨1, "Informe", "detalle", "alta", "pendiente", 5⟩ = none :=
  ⟨mkTarea_validacion.2 0 "   " "detalle" "Alta" 5 emptyState (by decide),
    fun h => by
      rw [(mkTarea_validacion.1 0
        ⟨1, "Informe", "detalle", "alta", "pendiente", 5⟩)] at h
      revert h
      decide⟩

/-! ### C2 — loading skips exactly the invalid records -/

theorem cargar_foldl (now : Nat) :
    ∀ (l : List RawTarea) (acc : ServiceState),
      (∀ r ∈ l, (mkTarea now r).isSome = true →
        r.id ∉ acc.tareas.map Prod.fst) →
      (l.map RawTarea.id).Nodup →
      l.foldl (cargarPaso now) acc =
        { acc with
            tareas := acc.tareas ++
              ((l.filterMap (mkTarea now)).map fun t => (t.id, t)),
            errores := acc.errores +
              (l.filter fun r => (mkTarea now r).isNone).length } := by
  intro l
  induction l with
  | nil =>
      intro acc _ _
      simp
  | cons r l ih =>
      intro acc hfresh hnodup
      have hnodup' := hnodup
      rw [List.map_cons, List.nodup_cons] at hnodup'
      rcases hm : mkTarea now r with _ | t
      · have hstep : cargarPaso now acc r =
            { acc with errores := acc.errores + 1 } := by
          simp [cargarPaso, hm]
        rw [List.foldl_cons, hstep,
          ih { acc with errores := acc.errores + 1 }
            (fun r' hr' hs => hfresh r' (List.mem_cons_of_mem r hr') hs)
            hnodup'.2]
        simp [List.filterMap_cons, List.filter_cons, hm]
        omega
      · have hid : t.id = r.id := mkTarea_id now r t hm
        have hfr : r.id ∉ acc.tareas.map Prod.fst :=
          hfresh r (List.mem_cons_self r l) (by simp [hm])
        have hstep : cargarPaso now acc r =
            { acc with tareas := acc.tareas ++ [(t.id, t)] } := by
          rw [cargarPaso, hm]
          simp [dictInsert_not_mem t.id t acc.tareas (hid ▸ hfr)]
        have hfresh' : ∀ r' ∈ l, (mkTarea now r').isSome = true →
            r'.id ∉ ({ acc with tareas := acc.tareas ++ [(t.id, t)] } :
              ServiceState).tareas.map Prod.fst := by
          intro r' hr' hs
          simp only [List.map_append, List.map_cons, List.map_nil,
            List.mem_append, List.mem_cons, List.not_mem_nil]
          rintro (h | h)
          · exact hfresh r' (List.mem_cons_of_mem r hr') hs h
          · rcases h with h | h
            · rw [hid] at h
              have hr'id : r'.id ∈ l.map RawTarea.id :=
                List.mem_map_of_mem RawTarea.id hr'
              exact hnodup'.1 (h ▸ hr'id)
            · exact h.elim
        rw [List.foldl_cons, hstep,
          ih { acc with tareas := acc.tareas ++ [(t.id, t)] } hfresh'
            hnodup'.2]
        simp [List.filterMap_cons, List.filter_cons, hm, List.append_assoc]

theorem freshLoad_eq (now : Nat) (snap : Snapshot)
    (hids : (snap.tareas.map RawTarea.id).Nodup) :
    (freshLoad now snap).tareas =
      ((snap.tareas.filterMap (mkTarea now)).map fun t => (t.id, t))
    ∧ (freshLoad now snap).errores =
      (snap.tareas.filter fun r => (mkTarea now r).isNone).length := by
  unfold freshLoad cargar_tareas
  have hT : (if snap.siguiente_id ≠ 0 then
      { emptyState with siguiente_id := snap.siguiente_id }
      else emptyState).tareas = [] := by
    split <;> rfl
  have hE : (if snap.siguiente_id ≠ 0 then
      { emptyState with siguiente_id := snap.siguiente_id }
      else emptyState).errores = 0 := by
    split <;> rfl
  rw [cargar_foldl now snap.tareas _ (by intro r _ _; rw [hT]; simp) hids]
  constructor
  · simp only [hT, List.nil_append]
  · simp only [hE, Nat.zero_add]

theorem cargarLoopArchivo_eq (now : Nat) :
    ∀ (l : List RawTareaArchivo) (st : ServiceState),
      (∀ r ∈ l, r.fecha_texto ≠ FechaTexto.invalida) →
      cargarLoopArchivo now st l =
        (l.filterMap convertirFecha).foldl (cargarPaso now) st := by
  intro l
  induction l with
  | nil => intro st _; rfl
  | cons r rest ih =>
      intro st h
      rcases hf : r.fecha_texto with f | _
      · have hc : convertirFecha r =
            some ⟨r.id, r.titulo, r.descripcion, r.prioridad, r.estado, f⟩ := by
          rw [convertirFecha, hf]
        simp only [cargarLoopArchivo, hf, List.filterMap_cons, hc,
          List.foldl_cons]
        exact ih _ (fun r' hr' => h r' (List.mem_cons_of_mem r hr'))
      · exact absurd hf (h r (List.mem_cons_self r rest))

theorem convertirFecha_ids :
    ∀ (l : List RawTareaArchivo),
      (∀ r ∈ l, r.fecha_texto ≠ FechaTexto.invalida) →
      (l.filterMap convertirFecha).map RawTarea.id =
        l.map RawTareaArchivo.id := by
  intro l
  induction l with
  | nil => intro _; rfl
  | cons r rest ih =>
      intro h
      rcases hf : r.fecha_texto with f | _
      · have hc : convertirFecha r =
            some ⟨r.id, r.titulo, r.descripcion, r.prioridad, r.estado, f⟩ := by
          rw [convertirFecha, hf]
        simp only [List.filterMap_cons, hc, List.map_cons]
        rw [ih (fun r' hr' => h r' (List.mem_cons_of_mem r hr'))]
      · exact absurd hf (h r (List.mem_cons_self r rest))

/-- C2 (amended): for every snapshot file whose top level parses and
whose every record's due-date string is parseable, loading skips
exactly the records that fail validation — each logged as one error —
and still loads every other valid record in the file into the registry
(saved records carry distinct ids, as every snapshot the service writes
does).  The parseability proviso is forced: the `datetime.fromisoformat`
call runs before the per-record `try`, so an unparseable due-date
string aborts the rest of the load instead of skipping one record — see
`cargar_archivo_counterexample`. -/
theorem cargar_archivo_salta_invalidas (now : Nat) (snap : SnapshotArchivo)
    (hfechas : ∀ r ∈ snap.tareas, r.fecha_texto ≠ FechaTexto.invalida)
    (hids : (snap.tareas.map RawTareaArchivo.id).Nodup) :
    (freshLoadArchivo now snap).tareas =
      (((snap.tareas.filterMap convertirFecha).filterMap (mkTarea now)).map
        fun t => (t.id, t))
    ∧ (freshLoadArchivo now snap).errores =
      ((snap.tareas.filterMap convertirFecha).filter
        fun r => (mkTarea now r).isNone).length := by
  unfold freshLoadArchivo cargar_tareas_archivo
  rw [cargarLoopArchivo_eq now snap.tareas _ hfechas]
  have hT : (if snap.siguiente_id ≠ 0 then
      { emptyState with siguiente_id := snap.siguiente_id }
      else emptyState).tareas = [] := by
    split <;> rfl
  have hE : (if snap.siguiente_id ≠ 0 then
      { emptyState with siguiente_id := snap.siguiente_id }
      else emptyState).errores = 0 := by
    split <;> rfl
  have hids' : ((snap.tareas.filterMap convertirFecha).map RawTarea.id).Nodup := by
    rw [convertirFecha_ids snap.tareas hfechas]
    exact hids
  rw [cargar_foldl now _ _ (by intro r _ _; rw [hT]; simp) hids']
  constructor
  · simp only [hT, List.nil_append]
  · simp only [hE, Nat.zero_add]

/-- Concrete instance of `cargar_archivo_salta_invalidas`: a snapshot
file of five records whose date strings all parse and in which one
record (empty title) fails validation loads exactly the four valid
records and logs one error. -/
theorem cargar_archivo_salta_invalidas_witness :
    (freshLoadArchivo 50 snapshotEjemplo).tareas =
      (((snapshotEjemplo.tareas.filterMap convertirFecha).filterMap
        (mkTarea 50)).map fun t => (t.id, t))
    ∧ (freshLoadArchivo 50 snapshotEjemplo).errores =
      ((snapshotEjemplo.tareas.filterMap convertirFecha).filter
        fun r => (mkTarea 50 r).isNone).length :=
  cargar_archivo_salta_invalidas 50 snapshotEjemplo (by decide) (by decide)

/-- C2 as literally stated is false on the program: in
`snapshotMalformada` the third record is malformed (whitespace-only
title, unparseable due-date string), and because `datetime.fromisoformat`
runs before the per-record `try`, the `ValueError` escapes to the outer
handler and ends the load — the valid records 4 and 5 (record 5 is
shown to pass validation) are dropped instead of loaded, leaving only
the two records before the malformed one and a single logged error. -/
theorem cargar_archivo_counterexample :
    (mkTarea 50 ⟨5, "t5", "d", "baja", "pendiente", 100⟩).isSome = true
    ∧ dictGet 4 (freshLoadArchivo 50 snapshotMalformada).tareas = none
    ∧ dictGet 5 (freshLoadArchivo 50 snapshotMalformada).tareas = none
    ∧ (freshLoadArchivo 50 snapshotMalformada).tareas.length = 2
    ∧ (freshLoadArchivo 50 snapshotMalformada).errores = 1 := by
  decide

/-! ### C1 — save/load round-trip -/

theorem filterMap_mkTarea_serialize (now : Nat) :
    ∀ (l : List Tarea),
      (∀ t ∈ l, tituloValido t.titulo = true ∧ now ≤ t.fecha_vencimiento) →
      (l.map serializeTarea).filterMap (mkTarea now) = l := by
  intro l
  induction l with
  | nil => intro _; simp
  | cons t l ih =>
      intro h
      have ht := h t (List.mem_cons_self t l)
      simp only [List.map_cons, List.filterMap_cons,
        mkTarea_serializeTarea now t ht.1 ht.2]
      rw [ih (fun t' ht' => h t' (List.mem_cons_of_mem t ht'))]

/-- C1 (amended): for every well-formed registry state — keys match
record ids, stored titles are valid, and no stored record's due date
lies before the load-time clock — saving and reloading into a fresh
registry reproduces the mapping: same size and the same record under
every id.  (Without the due-date proviso the claim fails, see
`guardar_cargar_counterexample`: reloading re-runs the `fecha_valida`
validator.) -/
theorem guardar_cargar_roundtrip (now : Nat) (st : ServiceState)
    (hkeys : (st.tareas.map Prod.fst).Nodup)
    (hwf : ∀ p ∈ st.tareas, p.1 = p.2.id ∧ tituloValido p.2.titulo = true)
    (hfuturo : ∀ p ∈ st.tareas, now ≤ p.2.fecha_vencimiento) :
    (freshLoad now (guardar_tareas st).1).tareas.length = st.tareas.length
    ∧ ∀ i, dictGet i (freshLoad now (guardar_tareas st).1).tareas =
        dictGet i st.tareas := by
  have hsnap : (guardar_tareas st).1.tareas =
      (st.tareas.map Prod.snd).map serializeTarea := rfl
  have hids : ((guardar_tareas st).1.tareas.map RawTarea.id).Nodup := by
    rw [hsnap, List.map_map, List.map_map]
    have : st.tareas.map ((RawTarea.id ∘ serializeTarea) ∘ Prod.snd) =
        st.tareas.map Prod.fst :=
      List.map_congr_left (fun p hp => ((hwf p hp).1).symm)
    rw [this]
    exact hkeys
  have h2 := freshLoad_eq now (guardar_tareas st).1 hids
  have hfm : (guardar_tareas st).1.tareas.filterMap (mkTarea now) =
      st.tareas.map Prod.snd := by
    rw [hsnap]
    refine filterMap_mkTarea_serialize now (st.tareas.map Prod.snd) ?_
    intro t ht
    obtain ⟨p, hp, rfl⟩ := List.mem_map.1 ht
    exact ⟨(hwf p hp).2, hfuturo p hp⟩
  have hlist : (freshLoad now (guardar_tareas st).1).tareas = st.tareas := by
    rw [h2.1, hfm, List.map_map]
    have : st.tareas.map ((fun t => (t.id, t)) ∘ Prod.snd) =
        st.tareas.map id := by
      refine List.map_congr_left ?_
      intro p hp
      obtain ⟨hk, _⟩ := hwf p hp
      obtain ⟨k, t⟩ := p
      simp only [Function.comp_apply, id_eq]
      simp only at hk
      rw [hk]
    rw [this, List.map_id]
  exact ⟨by rw [hlist], fun i => by rw [hlist]⟩

/-- Concrete instance of `guardar_cargar_roundtrip`: a two-record
registry saved and reloaded before any due date has passed comes back
identical. -/
theorem guardar_cargar_roundtrip_witness :
    (freshLoad 50 (guardar_tareas
        ⟨[(1, tareaA), (2, tareaB)], 3, 0, 0⟩).1).tareas.length =
      (⟨[(1, tareaA), (2, tareaB)], 3, 0, 0⟩ : ServiceState).tareas.length
    ∧ ∀ i, dictGet i (freshLoad 50 (guardar_tareas
        ⟨[(1, tareaA), (2, tareaB)], 3, 0, 0⟩).1).tareas =
      dictGet i (⟨[(1, tareaA), (2, tareaB)], 3, 0, 0⟩ :
        ServiceState).tareas :=
  guardar_cargar_roundtrip 50 ⟨[(1, tareaA), (2, tareaB)], 3, 0, 0⟩
    (by decide) (by decide) (by decide)

/-- C1 as literally stated is false: a registry whose stored record's
due date (100) has passed by load time (300) reloads to a smaller
mapping, because `cargar_tareas` re-runs the `fecha_valida` validator. -/
theorem guardar_cargar_counterexample :
    ¬ ((freshLoad 300 (guardar_tareas
          ⟨[(1, tareaA)], 2, 0, 0⟩).1).tareas.length =
        (⟨[(1, tareaA)], 2, 0, 0⟩ : ServiceState).tareas.length) := by
  decide

/-! ### C10 — reloading drops records whose due date has passed -/

theorem mkTarea_fecha (now : Nat) (r : RawTarea) (t : Tarea)
    (h : mkTarea now r = some t) : now ≤ t.fecha_vencimiento := by
  unfold mkTarea at h
  split at h
  · split at h
    · rename_i hv
      rw [Bool.and_eq_true] at hv
      have := hv.2
      simp only [fechaValida, Bool.not_eq_true', decide_eq_false_iff_not,
        Nat.not_lt] at this
      cases h
      exact this
    · cases h
  · cases h

theorem cargar_foldl_fecha (now : Nat) :
    ∀ (l : List RawTarea) (acc : ServiceState),
      (∀ p ∈ acc.tareas, now ≤ p.2.fecha_vencimiento) →
      ∀ p ∈ (l.foldl (cargarPaso now) acc).tareas,
        now ≤ p.2.fecha_vencimiento := by
  intro l
  induction l with
  | nil => intro acc h; exact h
  | cons r l ih =>
      intro acc h
      rw [List.foldl_cons]
      refine ih (cargarPaso now acc r) ?_
      intro p hp
      rcases hm : mkTarea now r with _ | t
      · rw [cargarPaso, hm] at hp
        exact h p hp
      · rw [cargarPaso, hm] at hp
        rcases mem_dictInsert t.id t acc.tareas p hp with h' | h'
        · exact h p h'
        · rw [h']
          exact mkTarea_fecha now r t hm

/-- C10: every record loaded by `cargar_tareas` has a due date at or
after the load-time clock, so a saved record whose due date has passed
by load time is excluded from the reconstructed registry: no loaded
record serializes back to it. -/
theorem cargar_excluye_vencidas (now : Nat) (snap : Snapshot) :
    (∀ p ∈ (freshLoad now snap).tareas, now ≤ p.2.fecha_vencimiento)
    ∧ (∀ r ∈ snap.tareas, r.fecha_vencimiento < now →
        ∀ p ∈ (freshLoad now snap).tareas, serializeTarea p.2 ≠ r) := by
  have h1 : ∀ p ∈ (freshLoad now snap).tareas, now ≤ p.2.fecha_vencimiento := by
    unfold freshLoad cargar_tareas
    refine cargar_foldl_fecha now snap.tareas _ ?_
    intro p hp
    split at hp <;> exact absurd hp (List.not_mem_nil p)
  refine ⟨h1, ?_⟩
  intro r _ hlt p hp heq
  have hge := h1 p hp
  have : r.fecha_vencimiento = p.2.fecha_vencimiento := by
    rw [← heq]
    rfl
  omega

/-- Concrete instance of `cargar_excluye_vencidas`: loading at time 300
a snapshot holding a task due at 400 and one due at 100, the surviving
record is the future one and the past-due record is gone. -/
theorem cargar_excluye_vencidas_witness :
    (300 : Nat) ≤
      (((2 : Nat), (⟨2, "t2", "d", .media, .pendiente, 400⟩ : Tarea)) :
        Nat × Tarea).2.fecha_vencimiento :=
  (cargar_excluye_vencidas 300
      ⟨3, [⟨1, "t1", "d", "alta", "pendiente", 100⟩,
        ⟨2, "t2", "d", "media", "pendiente", 400⟩]⟩).1
    (2, ⟨2, "t2", "d", .media, .pendiente, 400⟩) (by decide)

/-! ### C5 — sequential id assignment -/

theorem agregar_spec (now : Nat) (titulo descripcion prioridad : String)
    (fecha : Nat) (st : ServiceState) :
    (createResultId (agregar_tarea now titulo descripcion prioridad fecha st).1
        = none
      ∧ (agregar_tarea now titulo descripcion prioridad fecha st).2.tareas =
        st.tareas
      ∧ (agregar_tarea now titulo descripcion prioridad fecha
          st).2.siguiente_id = st.siguiente_id)
    ∨ (∃ t, (agregar_tarea now titulo descripcion prioridad fecha st).1 =
          .creada t
        ∧ t.id = st.siguiente_id
        ∧ (agregar_tarea now titulo descripcion prioridad fecha st).2.tareas =
          dictInsert st.siguiente_id t st.tareas
        ∧ (agregar_tarea now titulo descripcion prioridad fecha
            st).2.siguiente_id = st.siguiente_id + 1) := by
  by_cases hcap : st.tareas.length ≥ MAX_TAREAS
  · left
    simp [agregar_tarea, hcap, createResultId]
  · rcases hp : parsePrioridad (pyLower prioridad) with _ | p
    · left
      simp [agregar_tarea, hcap, hp, createResultId]
    · by_cases hv : (tituloValido titulo && fechaValida now fecha) = true
      · right
        refine ⟨⟨st.siguiente_id, titulo, descripcion, p, .pendiente, fecha⟩,
          ?_, rfl, ?_, ?_⟩ <;>
          simp [agregar_tarea, hcap, hp, hv, createResultId]
      · left
        simp [agregar_tarea, hcap, hp, hv, createResultId]

theorem creates_ids_aux :
    ∀ (inputs : List CreateInput) (st : ServiceState) (n : Nat),
      st.tareas.map Prod.fst = List.range' 1 n →
      st.siguiente_id = n + 1 →
      ((creates st inputs).1.filterMap createResultId =
          List.range' (n + 1)
            ((creates st inputs).1.filterMap createResultId).length
        ∧ (creates st inputs).2.tareas.map Prod.fst =
          List.range' 1
            (n + ((creates st inputs).1.filterMap createResultId).length)
        ∧ (creates st inputs).2.siguiente_id =
          n + ((creates st inputs).1.filterMap createResultId).length + 1) := by
  intro inputs
  induction inputs with
  | nil =>
      intro st n h1 h2
      refine ⟨rfl, ?_, ?_⟩
      · simpa [creates] using h1
      · simpa [creates] using h2
  | cons i rest ih =>
      intro st n h1 h2
      rcases agregar_spec i.now i.titulo i.descripcion i.prioridad
          i.fecha_vencimiento st with
        ⟨hid, ht, hs⟩ | ⟨t, hr, htid, ht, hs⟩
      · have ihh := ih (agregar_tarea i.now i.titulo i.descripcion i.prioridad
            i.fecha_vencimiento st).2 n (by rw [ht]; exact h1)
            (by rw [hs]; exact h2)
        refine ⟨?_, ?_, ?_⟩ <;>
          simp only [creates, List.filterMap_cons, hid]
        · exact ihh.1
        · exact ihh.2.1
        · exact ihh.2.2
      · have hfresh : st.siguiente_id ∉ st.tareas.map Prod.fst := by
          rw [h1, h2]
          intro hmem
          have := List.mem_range'_1.1 hmem
          omega
        have hkeys' : (agregar_tarea i.now i.titulo i.descripcion i.prioridad
            i.fecha_vencimiento st).2.tareas.map Prod.fst =
            List.range' 1 (n + 1) := by
          rw [ht, dictInsert_not_mem _ _ _ hfresh, List.map_append, h1, h2]
          simp [List.range'_concat, Nat.add_comm]
        have hsig' : (agregar_tarea i.now i.titulo i.descripcion i.prioridad
            i.fecha_vencimiento st).2.siguiente_id = (n + 1) + 1 := by
          rw [hs, h2]
        have ihh := ih (agregar_tarea i.now i.titulo i.descripcion i.prioridad
            i.fecha_vencimiento st).2 (n + 1) hkeys' hsig'
        have hridt : createResultId (agregar_tarea i.now i.titulo i.descripcion
            i.prioridad i.fecha_vencimiento st).1 = some (n + 1) := by
          rw [hr, createResultId, htid, h2]
        refine ⟨?_, ?_, ?_⟩ <;>
          simp only [creates, List.filterMap_cons, hridt, List.length_cons]
        · rw [List.range'_succ, ← ihh.1]
        · rw [ihh.2.1]
          congr 1
          omega
        · rw [ihh.2.2]
          omega

/-- C5: starting from an empty registry, any sequence of `agregar_tarea`
calls assigns to its successful calls the ids 1, 2, 3, … in order — the
collected success ids are exactly `1..k`, hence strictly increasing and
starting at 1 — and the stored keys are exactly those ids, hence
unique. -/
theorem creates_ids (inputs : List CreateInput) :
    ((creates emptyState inputs).1.filterMap createResultId =
        List.range' 1
          ((creates emptyState inputs).1.filterMap createResultId).length)
    ∧ (creates emptyState inputs).2.tareas.map Prod.fst =
        (creates emptyState inputs).1.filterMap createResultId
    ∧ List.Pairwise (· < ·)
        ((creates emptyState inputs).1.filterMap createResultId) := by
  have h := creates_ids_aux inputs emptyState 0 rfl rfl
  have h1 : (creates emptyState inputs).1.filterMap createResultId =
      List.range' 1
        ((creates emptyState inputs).1.filterMap createResultId).length := by
    simpa using h.1
  refine ⟨h1, ?_, ?_⟩
  · rw [h.2.1, Nat.zero_add]
    exact h1.symm
  · rw [h1]
    exact List.pairwise_lt_range' 1 _ 1 (by simp)

/-! ### C6, C7 — sorted listings -/

theorem pairwise_insertionSort_rank_asc (l : List Tarea) :
    List.Pairwise
      (fun a b => prioridad_valor a.prioridad ≤ prioridad_valor b.prioridad)
      (l.insertionSort (fun a b =>
        prioridad_valor a.prioridad ≤ prioridad_valor b.prioridad)) := by
  haveI : IsTotal Tarea (fun a b =>
      prioridad_valor a.prioridad ≤ prioridad_valor b.prioridad) :=
    ⟨fun a b => Nat.le_total _ _⟩
  haveI : IsTrans Tarea (fun a b =>
      prioridad_valor a.prioridad ≤ prioridad_valor b.prioridad) :=
    ⟨fun _ _ _ hab hbc => Nat.le_trans hab hbc⟩
  exact List.sorted_insertionSort _ l

theorem pairwise_insertionSort_rank_desc (l : List Tarea) :
    List.Pairwise
      (fun a b => prioridad_valor b.prioridad ≤ prioridad_valor a.prioridad)
      (l.insertionSort (fun a b =>
        prioridad_valor b.prioridad ≤ prioridad_valor a.prioridad)) := by
  haveI : IsTotal Tarea (fun a b =>
      prioridad_valor b.prioridad ≤ prioridad_valor a.prioridad) :=
    ⟨fun a b => Nat.le_total _ _⟩
  haveI : IsTrans Tarea (fun a b =>
      prioridad_valor b.prioridad ≤ prioridad_valor a.prioridad) :=
    ⟨fun _ _ _ hab hbc => Nat.le_trans hbc hab⟩
  exact List.sorted_insertionSort _ l

/-- C6: `listar_tareas_por_prioridad` returns all stored records
(completed ones included) — a permutation of the stored values — with
priority rank (baja 1, media 2, alta 3) non-decreasing when ascending
and non-increasing when descending; on the registry holding priorities
[baja, alta, media] it returns [baja, media, alta] ascending and
[alta, media, baja] descending. -/
theorem listar_por_prioridad_ordena (st : ServiceState) :
    (∀ ascendente, List.Perm (listar_tareas_por_prioridad ascendente st)
        (st.tareas.map Prod.snd))
    ∧ List.Pairwise
        (fun a b => prioridad_valor a.prioridad ≤ prioridad_valor b.prioridad)
        (listar_tareas_por_prioridad true st)
    ∧ List.Pairwise
        (fun a b => prioridad_valor b.prioridad ≤ prioridad_valor a.prioridad)
        (listar_tareas_por_prioridad false st)
    ∧ (listar_tareas_por_prioridad true stPrioridades).map Tarea.prioridad =
        [.baja, .media, .alta]
    ∧ (listar_tareas_por_prioridad false stPrioridades).map Tarea.prioridad =
        [.alta, .media, .baja] := by
  refine ⟨?_, ?_, ?_, by decide, by decide⟩
  · intro ascendente
    cases ascendente <;> exact List.perm_insertionSort _ _
  · exact pairwise_insertionSort_rank_asc (st.tareas.map Prod.snd)
  · exact pairwise_insertionSort_rank_desc (st.tareas.map Prod.snd)

/-- C7: `listar_tareas_por_vencimiento` returns exactly the stored
records whose status is not `completada` — a permutation of that filter
— sorted ascending by due date; on tasks due 101 (pendiente), 102
(completada), 103 (en progreso) it returns the ones due [101, 103]. -/
theorem listar_por_vencimiento_ordena (st : ServiceState) :
    List.Perm (listar_tareas_por_vencimiento st)
      ((st.tareas.map Prod.snd).filter (fun t => t.estado ≠ .completada))
    ∧ List.Pairwise (fun a b => a.fecha_vencimiento ≤ b.fecha_vencimiento)
        (listar_tareas_por_vencimiento st)
    ∧ (listar_tareas_por_vencimiento stVencimientos).map
        Tarea.fecha_vencimiento = [101, 103] := by
  refine ⟨List.perm_insertionSort _ _, ?_, by decide⟩
  haveI : IsTotal Tarea (fun a b : Tarea =>
      a.fecha_vencimiento ≤ b.fecha_vencimiento) :=
    ⟨fun a b => Nat.le_total _ _⟩
  haveI : IsTrans Tarea (fun a b : Tarea =>
      a.fecha_vencimiento ≤ b.fecha_vencimiento) :=
    ⟨fun _ _ _ hab hbc => Nat.le_trans hab hbc⟩
  exact List.sorted_insertionSort _ _

end SistemaGestion
